import Mathlib

/-!
Verification of the Telegram-bot dispatcher `web/service/tgbot.go`.

The Go code is shallowly embedded: pure helpers (`strings.Split`,
`strconv.ParseInt`, `checkAdmin`) become Lean functions; the handlers
become functions from an environment (configuration values and the
results the external collaborators would return) to a list of observable
effects (messages sent, callbacks acknowledged, web-server stop/start
calls, cron registrations, log lines); `Start`/`Stop` also transform an
explicit session state mirroring the fields of the `Tgbot` struct.
-/

namespace TgbotModel

/-- Worker for `goSplit`: accumulate the current token (reversed) and
cut it at every separator character. -/
def splitCharAux (c : Char) : List Char → List Char → List (List Char)
  | [], acc => [acc.reverse]
  | x :: xs, acc =>
    if x = c then acc.reverse :: splitCharAux c xs []
    else splitCharAux c xs (x :: acc)

/-- Go `strings.Split(s, sep)` for a one-character separator (the only
separators this program uses are `","` and `" "`): `"" ↦ [""]`,
separators at the ends produce empty tokens. -/
def goSplit (s : String) (sep : Char) : List String :=
  (splitCharAux sep s.data []).map List.asString

/-- Digit run to its value; `none` when empty or a non-digit appears.
Models the digit loop of Go `strconv.ParseUint` in base 10. -/
def digitsToNat (l : List Char) : Option Nat :=
  if l ≠ [] ∧ l.all Char.isDigit then
    some (l.foldl (fun acc c => acc * 10 + (c.toNat - 48)) 0)
  else none

/-- Go `strconv.ParseInt(s, 10, 64)`, returning `some v` exactly when Go
returns a nil error: optional sign, at least one digit, all digits, and
the value fits in a signed 64-bit integer (out-of-range inputs give
`ErrRange`, hence `none` here). -/
def parseInt64 (s : String) : Option Int :=
  match s.data with
  | [] => none
  | '+' :: rest =>
    match digitsToNat rest with
    | some n => if n ≤ 2 ^ 63 - 1 then some (n : Int) else none
    | none => none
  | '-' :: rest =>
    match digitsToNat rest with
    | some n => if n ≤ 2 ^ 63 then some (-(n : Int)) else none
    | none => none
  | l =>
    match digitsToNat l with
    | some n => if n ≤ 2 ^ 63 - 1 then some (n : Int) else none
    | none => none

/-- `model.Inbound` as consumed here: a tag and a cumulative total. -/
structure Inbound where
  tag : String
  total : Int
  deriving Repr, DecidableEq

/-- One observable effect of a handler: an outbound message, a keyboard
message, a callback acknowledgement, a call into an external
collaborator, or a log line. -/
inductive Effect where
  | send (chatId : Int) (text : String)
  | sendKeyboard (chatId : Int) (text : String)
      (keyboard : List (List (String × String)))
  | ackCallback (id : String)
  | wsStop
  | wsStart
  | clearTraffic
  | connect (token : String)
  | setMyCommands (cmds : List (String × String))
  | cronAdd (spec : String)
  | cronStart
  | cronStop
  | stopReceiving
  | logInfo (text : String)
  | logError (text : String)
  deriving Repr, DecidableEq

/-- Environment of a call: the current configuration values read from
`SettingService` and the results the external collaborators would
return.  `sendErr c t` is the error `bot.Send` would report for message
`t` to chat `c` (`none` = success); `formatTraffic` stands for
`common.FormatTraffic`, whose source is outside this file's scope. -/
structure Env where
  enabled : Bool
  token : String
  chatIds : String
  runtime : String
  connectErr : Option String
  inbounds : Except String (List Inbound)
  clearErr : Option String
  stopErr : Option String
  startErr : Option String
  setCmdErr : Option String
  sendErr : Int → String → Option String
  now : String
  formatTraffic : Int → String

/-- Session state: the fields of the `Tgbot` struct that the lifecycle
mutates.  `botInit` models `t.bot != nil`; `cronJobs` is the list of
schedule specs registered with the cron runner, `cronId` the stored id
of the last added entry. -/
structure BotState where
  botInit : Bool
  stopping : Bool
  cronJobs : List String
  cronId : Nat
  cronRunning : Bool
  deriving Repr, DecidableEq

/-- The state `GetTgbot` builds on first use. -/
def initialState : BotState :=
  { botInit := false, stopping := false, cronJobs := [], cronId := 0,
    cronRunning := false }

/-- `sendMsg`: attempt the send; on failure only log (the error is never
propagated to the caller). -/
def sendMsg (env : Env) (chatId : Int) (text : String) : List Effect :=
  Effect.send chatId text ::
    match env.sendErr chatId text with
    | some e => [Effect.logError ("Failed to send message:" ++ e)]
    | none => []

/-- `checkAdmin`: split the configured chat-id string on `,`, skip empty
tokens, and return `true` as soon as a token parses as an `int64` equal
to `chatID`. -/
def checkAdmin (env : Env) (chatId : Int) : Bool :=
  (goSplit env.chatIds ',').any fun id =>
    if id = "" then false
    else
      match parseInt64 id with
      | some cid => cid == chatId
      | none => false

/-- The admin allow-list as the spec describes it: split on `,`, skip
empty tokens, parse the remaining tokens as 64-bit integers skipping
failures.  Written from the spec's words, to be compared with
`checkAdmin`. -/
def adminAllowList (chatIds : String) : List Int :=
  ((goSplit chatIds ',').filter (· ≠ "")).filterMap parseInt64

/-- The inline keyboard `showMenu` builds: button label paired with its
callback-data token, rows as in the source. -/
def menuKeyboard : List (List (String × String)) :=
  [[("Functions", "functions"), ("Status", "status")],
   [("Restart", "restart"), ("Clear All", "clearall")],
   [("Help", "help")]]

/-- `showMenu`: send the "Select an option:" message with the inline
keyboard; on failure only log. -/
def showMenu (env : Env) (chatId : Int) : List Effect :=
  Effect.sendKeyboard chatId "Select an option:" menuKeyboard ::
    match env.sendErr chatId "Select an option:" with
    | some e => [Effect.logError ("Failed to send menu:" ++ e)]
    | none => []

/-- `handleMessage`: authorization gate first, then the text switch
(`/start`, `/menu`, default).  A Go `switch` on a string is a sequence
of equality tests. -/
def handleMessage (env : Env) (chatId : Int) (text : String) : List Effect :=
  if ¬ checkAdmin env chatId then
    sendMsg env chatId "You are not authorized to use this bot."
  else if text = "/start" then
    sendMsg env chatId "Welcome to 3X-UI Bot! Use /menu to see options."
  else if text = "/menu" then
    showMenu env chatId
  else
    sendMsg env chatId "Unknown command. Use /menu to see options."

/-- `getCPUUsage`: the source returns the fixed value `45.5` (a comment
there marks it as a placeholder for real monitoring).  `45.5` is exactly
representable as a binary double, so `ℚ` models it faithfully. -/
def getCPUUsage (_env : Env) : ℚ := 45.5

/-- Render a number of hundredths as a fixed-point decimal with two
fractional digits. -/
def format2Int (m : ℤ) : String :=
  (if m < 0 then "-" else "") ++ toString (m.natAbs / 100) ++ "." ++
    (if m.natAbs % 100 < 10 then "0" else "") ++ toString (m.natAbs % 100)

/-- Go `fmt.Sprintf("%.2f", x)` for values that are exact at two decimal
places (all values this program formats): fixed-point rendering with two
fractional digits.  (For exact values no rounding mode is exercised;
the `+ 1/2` mirrors rounding to the nearest hundredth.) -/
def format2 (q : ℚ) : String :=
  format2Int (Rat.floor (q * 100 + 1 / 2))

/-- The status text `sendStatus` accumulates over the inbound list. -/
def statusBody (env : Env) (inbounds : List Inbound) : String :=
  inbounds.foldl
    (fun acc ib =>
      acc ++ "Inbound " ++ ib.tag ++ ": " ++ env.formatTraffic ib.total ++ "\n")
    "System Status:\n"

/-- `sendStatus`: on a service error surface it verbatim, otherwise send
the per-inbound lines followed by the CPU line. -/
def sendStatus (env : Env) (chatId : Int) : List Effect :=
  match env.inbounds with
  | Except.error e => sendMsg env chatId ("Failed to get status: " ++ e)
  | Except.ok inbounds =>
    sendMsg env chatId
      (statusBody env inbounds ++
        "CPU Usage: " ++ format2 (getCPUUsage env) ++ "%\n")

/-- `restartServer`: announce, stop the web server (report a stop
failure and return), then start it (report a start failure and return),
then declare success. -/
def restartServer (env : Env) (chatId : Int) : List Effect :=
  sendMsg env chatId "Restarting 3X-UI..." ++
    (Effect.wsStop ::
      match env.stopErr with
      | some e => sendMsg env chatId ("Failed to stop server: " ++ e)
      | none =>
        Effect.wsStart ::
          match env.startErr with
          | some e => sendMsg env chatId ("Failed to start server: " ++ e)
          | none => sendMsg env chatId "3X-UI restarted successfully.")

/-- `clearAll`: announce, invoke the traffic reset, report the error
verbatim or success. -/
def clearAll (env : Env) (chatId : Int) : List Effect :=
  sendMsg env chatId "Clearing all data..." ++
    (Effect.clearTraffic ::
      match env.clearErr with
      | some e => sendMsg env chatId ("Failed to clear data: " ++ e)
      | none => sendMsg env chatId "All data cleared successfully.")

/-- The `switch callback.Data` body of `handleCallback` (before the
acknowledgement). -/
def callbackBody (env : Env) (chatId : Int) (dat : String) : List Effect :=
  if dat = "functions" then
    sendMsg env chatId
      "Available functions:\n- Traffic stats\n- User management\n(to be expanded)"
  else if dat = "status" then
    sendStatus env chatId
  else if dat = "restart" then
    restartServer env chatId
  else if dat = "clearall" then
    clearAll env chatId
  else if dat = "help" then
    sendMsg env chatId "Help:\n/menu - Show options\nContact admin for more info."
  else
    sendMsg env chatId "Unknown option."

/-- `handleCallback`: dispatch on the callback token, then acknowledge
the callback unconditionally.  The source performs no authorization
check here. -/
def handleCallback (env : Env) (chatId : Int) (dat : String) (cbId : String) :
    List Effect :=
  callbackBody env chatId dat ++ [Effect.ackCallback cbId]

/-- The per-recipient loop shared by the four notification producers and
the daily report: split the configured chat-id string on `,`, parse each
token (skip on error), send to each parsed id. -/
def broadcastTrace (env : Env) (msg : String) : List Effect :=
  (goSplit env.chatIds ',').flatMap fun idStr =>
    match parseInt64 idStr with
    | none => []
    | some chatId => sendMsg env chatId msg

/-- `NotifyLogin`: no-op when disabled or uninitialized; otherwise
broadcast the login line (`time.Now().Format(time.RFC1123)` is the
environment's `now` string). -/
def NotifyLogin (env : Env) (st : BotState) (username ip : String) :
    List Effect :=
  if ¬ env.enabled ∨ ¬ st.botInit then []
  else
    broadcastTrace env
      ("User " ++ username ++ " logged in from IP " ++ ip ++ " at " ++ env.now)

/-- `NotifyTrafficLimit`: no-op when disabled or uninitialized;
otherwise broadcast the traffic-limit line. -/
def NotifyTrafficLimit (env : Env) (st : BotState) (inbound : Inbound) :
    List Effect :=
  if ¬ env.enabled ∨ ¬ st.botInit then []
  else
    broadcastTrace env
      ("Inbound " ++ inbound.tag ++ " has reached traffic limit: " ++
        env.formatTraffic inbound.total)

/-- `NotifyExpiration`: no-op when disabled or uninitialized; otherwise
broadcast the expiration line (`%d` renders the Go int in decimal). -/
def NotifyExpiration (env : Env) (st : BotState) (inbound : Inbound)
    (daysLeft : Int) : List Effect :=
  if ¬ env.enabled ∨ ¬ st.botInit then []
  else
    broadcastTrace env
      ("Inbound " ++ inbound.tag ++ " will expire in " ++ toString daysLeft ++
        " days.")

/-- `NotifyCPULoad`: no-op when disabled or uninitialized; otherwise
broadcast the CPU-load line. -/
def NotifyCPULoad (env : Env) (st : BotState) (usage : ℚ) : List Effect :=
  if ¬ env.enabled ∨ ¬ st.botInit then []
  else
    broadcastTrace env
      ("CPU load has exceeded threshold: " ++ format2 usage ++ "%")

/-- Modelled from the spec: the cron runner (`robfig/cron`) is an
external collaborator whose parser is not under `src/`; the spec fixes
its schedule format as a six-field cron-style expression (seconds,
minutes, hours, day-of-month, month, day-of-week).  A field is `*`
(matches everything) or a decimal number matched by equality. -/
def cronFieldMatches (f : String) (v : Nat) : Bool :=
  if f = "*" then true
  else
    match parseInt64 f with
    | some n => n == (v : Int)
    | none => false

/-- Modelled from the spec: a wall-clock instant as the six cron fields
see it. -/
structure CronTime where
  sec : Nat
  min : Nat
  hour : Nat
  dom : Nat
  month : Nat
  dow : Nat
  deriving Repr, DecidableEq

/-- Modelled from the spec: the six whitespace-separated fields of a
schedule spec. -/
def cronFields (s : String) : List String :=
  (goSplit s ' ').filter (· ≠ "")

/-- Modelled from the spec: a spec is accepted when it has exactly six
fields, each `*` or a decimal number within the field's range. -/
def cronValid (s : String) : Bool :=
  match cronFields s with
  | [f1, f2, f3, f4, f5, f6] =>
    let fieldOk (f : String) (lo hi : Nat) : Bool :=
      f = "*" ||
        match parseInt64 f with
        | some n => (lo : Int) ≤ n && n ≤ (hi : Int)
        | none => false
    fieldOk f1 0 59 && fieldOk f2 0 59 && fieldOk f3 0 23 &&
      fieldOk f4 1 31 && fieldOk f5 1 12 && fieldOk f6 0 6
  | _ => false

/-- Modelled from the spec: an accepted schedule fires at an instant iff
every field matches it. -/
def cronMatches (s : String) (t : CronTime) : Bool :=
  match cronFields s with
  | [f1, f2, f3, f4, f5, f6] =>
    cronFieldMatches f1 t.sec && cronFieldMatches f2 t.min &&
      cronFieldMatches f3 t.hour && cronFieldMatches f4 t.dom &&
      cronFieldMatches f5 t.month && cronFieldMatches f6 t.dow
  | _ => false

/-- The schedule `startCron` effectively uses: the configured value, or
the documented default when it is empty. -/
def resolvedRuntime (env : Env) : String :=
  if env.runtime = "" then "0 0 8 * * *" else env.runtime

/-- `startCron`: resolve the schedule, register the daily-report job
(`cron.AddFunc`), store the entry id, start the cron runner; on a
rejected spec only log. -/
def startCron (env : Env) (st : BotState) : BotState × List Effect :=
  let rt := resolvedRuntime env
  if cronValid rt then
    ({ st with cronJobs := st.cronJobs ++ [rt],
               cronId := st.cronJobs.length + 1,
               cronRunning := true },
      [Effect.cronAdd rt, Effect.cronStart,
        Effect.logInfo ("Telegram bot cron started with schedule:" ++ rt)])
  else
    (st, [Effect.cronAdd rt, Effect.logError "Failed to add cron job:"])

/-- `setCommandMenu`: register the two bot commands; on failure only
log. -/
def setCommandMenu (env : Env) : List Effect :=
  Effect.setMyCommands
      [("/start", "Start the bot"), ("/menu", "Show available options")] ::
    match env.setCmdErr with
    | some e => [Effect.logError ("Failed to set command menu:" ++ e)]
    | none => [Effect.logInfo "Telegram bot command menu set successfully."]

/-- One element of the update stream: a message, a callback, or an
update carrying neither. -/
inductive Update where
  | message (chatId : Int) (text : String)
  | callback (chatId : Int) (dat : String) (cbId : String)
  | other
  deriving Repr, DecidableEq

/-- Dispatch of one update inside the ingestion loop. -/
def handleUpdate (env : Env) : Update → List Effect
  | Update.message chatId text => handleMessage env chatId text
  | Update.callback chatId dat cbId => handleCallback env chatId dat cbId
  | Update.other => []

/-- The ingestion loop over a (finite prefix of the) update stream: the
stop flag is polled before each update; within one sequential run it
does not change, so a raised flag drops the rest of the stream. -/
def runLoop (env : Env) (st : BotState) : List Update → List Effect
  | [] => []
  | u :: rest =>
    if st.stopping then []
    else handleUpdate env u ++ runLoop env st rest

/-- `Start`, sequentialized over a finite update stream: the
enabled-flag gate, bot initialization (fatal on `connectErr`), command
menu, cron startup, then the ingestion loop.  The source has no
already-running guard: none appears here. -/
def Start (env : Env) (st : BotState) (updates : List Update) :
    BotState × List Effect :=
  if ¬ env.enabled then
    (st, [Effect.logInfo "Telegram bot is disabled in settings."])
  else
    match env.connectErr with
    | some e =>
      (st, [Effect.connect env.token,
        Effect.logError ("Failed to initialize Telegram bot:" ++ e)])
    | none =>
      let st1 := { st with botInit := true }
      let cronRes := startCron env st1
      (cronRes.1,
        [Effect.connect env.token,
          Effect.logInfo "Telegram bot initialized successfully."] ++
          setCommandMenu env ++ cronRes.2 ++ runLoop env cronRes.1 updates)

/-- `Stop`: raise the stop flag, halt update delivery when a bot handle
exists (`t.bot != nil`), stop the cron runner (`t.cron` is always
non-nil after `GetTgbot`), log. -/
def Stop (_env : Env) (st : BotState) : BotState × List Effect :=
  ({ st with stopping := true, cronRunning := false },
    (if st.botInit then [Effect.stopReceiving] else []) ++
      [Effect.cronStop, Effect.logInfo "Telegram bot stopped."])

/-- The chat ids a broadcast reaches: every token of the configured
string that parses as an `int64`. -/
def parsedIds (chatIds : String) : List Int :=
  (goSplit chatIds ',').filterMap parseInt64

/-- Recognize an outbound chat message among the effects. -/
def isSend : Effect → Bool
  | Effect.send _ _ => true
  | _ => false

/-- Recognize a callback acknowledgement among the effects. -/
def isAck : Effect → Bool
  | Effect.ackCallback _ => true
  | _ => false

/-- A concrete environment: allow-list `"111,abc,222"`, everything
healthy, empty schedule spec. -/
def envAllow : Env :=
  { enabled := true, token := "tok", chatIds := "111,abc,222", runtime := "",
    connectErr := none, inbounds := Except.ok [], clearErr := none,
    stopErr := none, startErr := none, setCmdErr := none,
    sendErr := fun _ _ => none, now := "Mon, 01 Jan 2024 08:00:00 UTC",
    formatTraffic := fun _ => "" }

/-- A concrete environment with the bot disabled. -/
def envDisabled : Env :=
  { envAllow with enabled := false }

/-- A concrete environment whose chat-id list mixes valid and malformed
tokens, and whose transport fails every send to chat 5. -/
def envTwo : Env :=
  { envAllow with
    chatIds := "5,x,7"
    sendErr := fun c _ => if c = 5 then some "boom" else none }

/-- A session state in which the bot has been initialized and the cron
job registered: the state `Start` reaches in a healthy run. -/
def stRun : BotState :=
  { botInit := true, stopping := false, cronJobs := ["0 0 8 * * *"],
    cronId := 1, cronRunning := true }

/-- Helper: the message attempts of a single `sendMsg`, irrespective of
the transport outcome. -/
theorem sendMsg_sends (env : Env) (c : Int) (t : String) :
    (sendMsg env c t).filter isSend = [Effect.send c t] := by
  unfold sendMsg
  cases env.sendErr c t <;> simp [isSend]

/-- Helper: `sendMsg` never acknowledges a callback. -/
theorem sendMsg_no_ack (env : Env) (c : Int) (t : String) :
    (sendMsg env c t).countP isAck = 0 := by
  unfold sendMsg
  cases env.sendErr c t <;> simp [isAck, List.countP_cons]

/-- Helper: the message attempts of a broadcast are one per parsed chat
id, whatever the transport outcomes. -/
theorem broadcastTrace_sends (env : Env) (msg : String) :
    (broadcastTrace env msg).filter isSend =
      (parsedIds env.chatIds).map (fun c => Effect.send c msg) := by
  unfold broadcastTrace parsedIds
  induction goSplit env.chatIds ',' with
  | nil => simp
  | cons hd tl ih =>
    cases h : parseInt64 hd <;>
      simp [h, List.filter_append, ih, sendMsg_sends]

/-- C2: `checkAdmin` returns `true` exactly when the chat id is one of
the successfully parsed entries of the comma-split allow-list
(`adminAllowList` is written from the spec's algorithm), and on the
allow-list `"111,abc,222"` it accepts 111 and 222 and rejects 999
without failing on the malformed entry. -/
theorem c2_checkAdmin_spec :
    (∀ env chatId,
      checkAdmin env chatId = true ↔ chatId ∈ adminAllowList env.chatIds) ∧
    checkAdmin envAllow 111 = true ∧ checkAdmin envAllow 222 = true ∧
      checkAdmin envAllow 999 = false := by
  refine ⟨fun env chatId => ?_, by decide, by decide, by decide⟩
  unfold checkAdmin adminAllowList
  rw [List.any_eq_true]
  constructor
  · rintro ⟨id, hmem, hp⟩
    by_cases hid : id = ""
    · simp [hid] at hp
    · rw [if_neg hid] at hp
      cases hcid : parseInt64 id with
      | none => rw [hcid] at hp; exact absurd hp (by simp)
      | some cid =>
        rw [hcid] at hp
        have : cid = chatId := by simpa using hp
        subst this
        exact List.mem_filterMap.mpr
          ⟨id, List.mem_filter.mpr ⟨hmem, by simpa using hid⟩, hcid⟩
  · intro hmem
    obtain ⟨id, hidmem, hcid⟩ := List.mem_filterMap.mp hmem
    obtain ⟨hidmem, hidne⟩ := List.mem_filter.mp hidmem
    refine ⟨id, hidmem, ?_⟩
    rw [if_neg (by simpa using hidne), hcid]
    simp

/-- C2 witness: the general equivalence applied to the concrete
allow-list `"111,abc,222"` at chat id 111. -/
theorem c2_checkAdmin_spec_witness : checkAdmin envAllow 111 = true :=
  (c2_checkAdmin_spec.1 envAllow 111).mpr (by decide)

/-- C1 counterexample: with allow-list `"111,abc,222"`, chat 999 is not
authorized, yet its `restart` callback stops and starts the web server
and is answered normally — the callback path never sends the
"not authorized" message and never consults the gate. -/
theorem c1_counterexample :
    checkAdmin envAllow 999 = false ∧
    handleCallback envAllow 999 "restart" "cb1" =
      [Effect.send 999 "Restarting 3X-UI...", Effect.wsStop, Effect.wsStart,
        Effect.send 999 "3X-UI restarted successfully.",
        Effect.ackCallback "cb1"] ∧
    Effect.send 999 "You are not authorized to use this bot." ∉
      handleCallback envAllow 999 "restart" "cb1" := by
  refine ⟨by decide, by decide, by decide⟩

/-- C1 amended: message handling applies the authorization gate first —
an unauthorized chat receives the single "not authorized" message and no
command handler runs; callback handling applies no gate at all — its
behavior is independent of the allow-list configuration, so the selected
handler runs for any chat id. -/
theorem c1_auth_gate_amended :
    (∀ env chatId text, checkAdmin env chatId = false →
      handleMessage env chatId text =
        sendMsg env chatId "You are not authorized to use this bot." ∧
      (handleMessage env chatId text).filter isSend =
        [Effect.send chatId "You are not authorized to use this bot."]) ∧
    (∀ env s chatId dat cbId,
      handleCallback { env with chatIds := s } chatId dat cbId =
        handleCallback env chatId dat cbId) := by
  constructor
  · intro env chatId text h
    have h1 : handleMessage env chatId text =
        sendMsg env chatId "You are not authorized to use this bot." := by
      unfold handleMessage
      rw [h]
      simp
    exact ⟨h1, by rw [h1, sendMsg_sends]⟩
  · intro env s chatId dat cbId
    rfl

/-- C1 amended witness: the amended statement at chat 999 against the
allow-list `"111,abc,222"`. -/
theorem c1_auth_gate_amended_witness :
    handleMessage envAllow 999 "/menu" =
      sendMsg envAllow 999 "You are not authorized to use this bot." ∧
    handleCallback { envAllow with chatIds := "" } 999 "help" "cb" =
      handleCallback envAllow 999 "help" "cb" :=
  ⟨(c1_auth_gate_amended.1 envAllow 999 "/menu" (by decide)).1,
    c1_auth_gate_amended.2 envAllow "" 999 "help" "cb"⟩

/-- C3: each of the four notification producers is a no-op when the bot
is disabled or uninitialized; otherwise its message attempts are exactly
one per successfully parsed token of the comma-split chat-id string —
the right-hand side never mentions the transport's failure oracle
`env.sendErr`, so one recipient's send failure cannot suppress the
attempts to the others. -/
theorem c3_notify_fanout :
    (∀ env st u ip ib d q, env.enabled = false ∨ st.botInit = false →
      NotifyLogin env st u ip = [] ∧ NotifyTrafficLimit env st ib = [] ∧
      NotifyExpiration env st ib d = [] ∧ NotifyCPULoad env st q = []) ∧
    (∀ env st, env.enabled = true → st.botInit = true →
      ∀ u ip ib d q,
        (NotifyLogin env st u ip).filter isSend =
          (parsedIds env.chatIds).map (fun c =>
            Effect.send c
              ("User " ++ u ++ " logged in from IP " ++ ip ++ " at " ++
                env.now)) ∧
        (NotifyTrafficLimit env st ib).filter isSend =
          (parsedIds env.chatIds).map (fun c =>
            Effect.send c
              ("Inbound " ++ ib.tag ++ " has reached traffic limit: " ++
                env.formatTraffic ib.total)) ∧
        (NotifyExpiration env st ib d).filter isSend =
          (parsedIds env.chatIds).map (fun c =>
            Effect.send c
              ("Inbound " ++ ib.tag ++ " will expire in " ++ toString d ++
                " days.")) ∧
        (NotifyCPULoad env st q).filter isSend =
          (parsedIds env.chatIds).map (fun c =>
            Effect.send c
              ("CPU load has exceeded threshold: " ++ format2 q ++ "%"))) := by
  constructor
  · intro env st u ip ib d q h
    have hcond : ¬ env.enabled = true ∨ ¬ st.botInit = true := by
      rcases h with h | h
      · exact Or.inl (by simp [h])
      · exact Or.inr (by simp [h])
    refine ⟨?_, ?_, ?_, ?_⟩ <;>
      · first
        | (unfold NotifyLogin; rw [if_pos hcond])
        | (unfold NotifyTrafficLimit; rw [if_pos hcond])
        | (unfold NotifyExpiration; rw [if_pos hcond])
        | (unfold NotifyCPULoad; rw [if_pos hcond])
  · intro env st he hb u ip ib d q
    have hcond : ¬ (¬ env.enabled = true ∨ ¬ st.botInit = true) := by
      simp [he, hb]
    refine ⟨?_, ?_, ?_, ?_⟩
    · unfold NotifyLogin; rw [if_neg hcond, broadcastTrace_sends]
    · unfold NotifyTrafficLimit; rw [if_neg hcond, broadcastTrace_sends]
    · unfold NotifyExpiration; rw [if_neg hcond, broadcastTrace_sends]
    · unfold NotifyCPULoad; rw [if_neg hcond, broadcastTrace_sends]

/-- C3 witness: with the bot disabled, `NotifyExpiration "vmess-1" 3`
sends nothing; with the bot enabled on the mixed chat-id list `"5,x,7"`
— a transport that fails every send to chat 5 — both 5 and 7 still get
a login-message attempt each. -/
theorem c3_notify_fanout_witness :
    NotifyExpiration envDisabled stRun ⟨"vmess-1", 1048576⟩ 3 = [] ∧
    (NotifyLogin envTwo stRun "alice" "1.2.3.4").filter isSend =
      [Effect.send 5
          ("User alice logged in from IP 1.2.3.4 at " ++ envTwo.now),
        Effect.send 7
          ("User alice logged in from IP 1.2.3.4 at " ++ envTwo.now)] := by
  constructor
  · exact (c3_notify_fanout.1 envDisabled stRun "alice" "1.2.3.4"
      ⟨"vmess-1", 1048576⟩ 3 0 (Or.inl rfl)).2.2.1
  · rw [(c3_notify_fanout.2 envTwo stRun rfl rfl "alice" "1.2.3.4"
      ⟨"vmess-1", 1048576⟩ 3 0).1]
    decide

/-- C4 counterexample: from the state a healthy `Start` has already
reached (bot initialized, one cron job registered), calling `Start`
again is not a no-op — it re-connects to the transport and registers a
second copy of the daily cron job. -/
theorem c4_counterexample :
    (Start envAllow stRun []).1 ≠ stRun ∧
    (Start envAllow stRun []).1.cronJobs = ["0 0 8 * * *", "0 0 8 * * *"] ∧
    Effect.connect "tok" ∈ (Start envAllow stRun []).2 ∧
    Effect.cronAdd "0 0 8 * * *" ∈ (Start envAllow stRun []).2 := by
  refine ⟨by decide, by decide, by decide, by decide⟩

/-- C4 amended: `Start` has no already-running guard — whenever the bot
is enabled and the transport accepts the token it performs its full
initialization again from any state, appending another cron job when the
resolved schedule is accepted; `Stop` is idempotent as claimed: from any
state (also one `Start` never touched) it completes, a second `Stop`
changes nothing, and the stop flag is left raised. -/
theorem c4_lifecycle_amended :
    (∀ env st updates, env.enabled = true → env.connectErr = none →
      Effect.connect env.token ∈ (Start env st updates).2 ∧
      (cronValid (resolvedRuntime env) = true →
        (Start env st updates).1.cronJobs =
          st.cronJobs ++ [resolvedRuntime env])) ∧
    (∀ env st,
      (Stop env (Stop env st).1).1 = (Stop env st).1 ∧
      (Stop env st).1.stopping = true) := by
  constructor
  · intro env st updates he hc
    have hgate : ¬ ¬ env.enabled = true := by simp [he]
    constructor
    · unfold Start
      rw [if_neg hgate, hc]
      simp
    · intro hv
      unfold Start
      rw [if_neg hgate, hc]
      simp [startCron, hv]
  · intro env st
    constructor
    · unfold Stop
      simp
    · unfold Stop
      simp

/-- C4 amended witness: the amended statement at the initial session
state with the healthy concrete environment. -/
theorem c4_lifecycle_amended_witness :
    Effect.connect "tok" ∈ (Start envAllow initialState []).2 ∧
    (Stop envAllow (Stop envAllow initialState).1).1 =
      (Stop envAllow initialState).1 :=
  ⟨(c4_lifecycle_amended.1 envAllow initialState [] rfl rfl).1,
    (c4_lifecycle_amended.2 envAllow initialState).1⟩

/-- Helper: no callback handler body ever acknowledges a callback
itself, in every environment (every combination of collaborator
outcomes). -/
theorem callbackBody_no_ack (env : Env) (chatId : Int) (dat : String) :
    (callbackBody env chatId dat).countP isAck = 0 := by
  have hstatus : (sendStatus env chatId).countP isAck = 0 := by
    unfold sendStatus
    cases env.inbounds <;> simp [sendMsg_no_ack]
  have hrestart : (restartServer env chatId).countP isAck = 0 := by
    unfold restartServer
    cases env.stopErr <;> cases env.startErr <;>
      simp [sendMsg_no_ack, List.countP_cons, isAck]
  have hclear : (clearAll env chatId).countP isAck = 0 := by
    unfold clearAll
    cases env.clearErr <;>
      simp [sendMsg_no_ack, List.countP_cons, isAck]
  unfold callbackBody
  repeat' split
  all_goals first
    | exact sendMsg_no_ack ..
    | exact hstatus
    | exact hrestart
    | exact hclear

/-- C5: every callback — matched against the dispatch table or not, and
however its handler's collaborator calls turn out — produces exactly one
acknowledgement, and that acknowledgement is the last effect, i.e. it
happens after the handler has run. -/
theorem c5_callback_ack (env : Env) (chatId : Int) (dat cbId : String) :
    (handleCallback env chatId dat cbId).countP isAck = 1 ∧
    (handleCallback env chatId dat cbId).getLast? =
      some (Effect.ackCallback cbId) := by
  unfold handleCallback
  constructor
  · rw [List.countP_append, callbackBody_no_ack]
    simp [isAck, List.countP_cons]
  · simp

/-- C5 witness: the acknowledgement count and position at a concrete
matched callback. -/
theorem c5_callback_ack_witness :
    (handleCallback envAllow 111 "status" "cb").countP isAck = 1 ∧
    (handleCallback envAllow 111 "status" "cb").getLast? =
      some (Effect.ackCallback "cb") :=
  c5_callback_ack envAllow 111 "status" "cb"

/-- C6 counterexample: for the authorized chat 111 and the unmatched
text `"xyz"`, the reply is `"Unknown command. Use /menu to see
options."` — not the bare literal `"Unknown command."`. -/
theorem c6_counterexample :
    checkAdmin envAllow 111 = true ∧
    handleMessage envAllow 111 "xyz" =
      [Effect.send 111 "Unknown command. Use /menu to see options."] ∧
    handleMessage envAllow 111 "xyz" ≠
      [Effect.send 111 "Unknown command."] := by
  refine ⟨by decide, by decide, by decide⟩

/-- C6 amended: for every authorized text matching no command the reply
is the literal `"Unknown command. Use /menu to see options."` (which
begins with "Unknown command."); for every callback token matching no
entry the reply is the literal `"Unknown option."` as claimed. -/
theorem c6_unknown_amended :
    (∀ env chatId text, checkAdmin env chatId = true →
      text ≠ "/start" → text ≠ "/menu" →
      handleMessage env chatId text =
        sendMsg env chatId "Unknown command. Use /menu to see options.") ∧
    (∀ env chatId dat cbId, dat ≠ "functions" → dat ≠ "status" →
      dat ≠ "restart" → dat ≠ "clearall" → dat ≠ "help" →
      handleCallback env chatId dat cbId =
        sendMsg env chatId "Unknown option." ++ [Effect.ackCallback cbId]) := by
  constructor
  · intro env chatId text hadm h1 h2
    unfold handleMessage
    rw [hadm]
    simp [h1, h2]
  · intro env chatId dat cbId h1 h2 h3 h4 h5
    unfold handleCallback callbackBody
    rw [if_neg h1, if_neg h2, if_neg h3, if_neg h4, if_neg h5]

/-- C6 amended witness: the amended statement at the unmatched text
`"xyz"` and the unmatched callback token `"nope"`. -/
theorem c6_unknown_amended_witness :
    handleMessage envAllow 111 "xyz" =
      sendMsg envAllow 111 "Unknown command. Use /menu to see options." ∧
    handleCallback envAllow 111 "nope" "cb" =
      sendMsg envAllow 111 "Unknown option." ++ [Effect.ackCallback "cb"] :=
  ⟨c6_unknown_amended.1 envAllow 111 "xyz" (by decide) (by decide) (by decide),
    c6_unknown_amended.2 envAllow 111 "nope" "cb" (by decide) (by decide)
      (by decide) (by decide) (by decide)⟩

/-- Helper: a string with a non-empty prefix differing in its first
character from `s` is never equal to `s`, whatever the suffix. -/
theorem prefixed_ne (p s : String) (e : String)
    (h : p.data.head?.isSome ∧ p.data.head? ≠ s.data.head?) :
    p ++ e ≠ s := by
  intro heq
  have h2 : (p ++ e).data = s.data := congrArg String.data heq
  rw [String.data_append] at h2
  obtain ⟨hs, hne⟩ := h
  cases hp : p.data with
  | nil => rw [hp] at hs; simp at hs
  | cons c rest =>
    rw [hp] at h2
    rw [hp] at hne
    rw [← h2] at hne
    simp at hne

/-- Helper: which chat messages a single `sendMsg` contains, whatever
the transport outcome. -/
theorem send_mem_sendMsg_iff (env : Env) (c c' : Int) (t t' : String) :
    Effect.send c' t' ∈ sendMsg env c t ↔ c' = c ∧ t' = t := by
  unfold sendMsg
  cases env.sendErr c t <;> simp

/-- Helper: `sendMsg` never calls the web server's start operation. -/
theorem wsStart_not_mem_sendMsg (env : Env) (c : Int) (t : String) :
    Effect.wsStart ∉ sendMsg env c t := by
  unfold sendMsg
  cases env.sendErr c t <;> simp

/-- C7: the restart handler stops the server first; on a stop failure it
reports the stop-specific message and never calls start; on a start
failure it reports the start-specific message; and the success message
is sent exactly when both the stop and the start calls returned without
error. -/
theorem c7_restart_reporting (env : Env) (chatId : Int) :
    (∀ e, env.stopErr = some e →
      restartServer env chatId =
        sendMsg env chatId "Restarting 3X-UI..." ++
          (Effect.wsStop ::
            sendMsg env chatId ("Failed to stop server: " ++ e)) ∧
      Effect.wsStart ∉ restartServer env chatId) ∧
    (∀ e, env.stopErr = none → env.startErr = some e →
      restartServer env chatId =
        sendMsg env chatId "Restarting 3X-UI..." ++
          (Effect.wsStop :: Effect.wsStart ::
            sendMsg env chatId ("Failed to start server: " ++ e))) ∧
    (env.stopErr = none → env.startErr = none →
      restartServer env chatId =
        sendMsg env chatId "Restarting 3X-UI..." ++
          (Effect.wsStop :: Effect.wsStart ::
            sendMsg env chatId "3X-UI restarted successfully.")) ∧
    (Effect.send chatId "3X-UI restarted successfully." ∈
        restartServer env chatId ↔
      env.stopErr = none ∧ env.startErr = none) := by
  refine ⟨?_, ?_, ?_, ?_⟩
  · intro e he
    have heq : restartServer env chatId =
        sendMsg env chatId "Restarting 3X-UI..." ++
          (Effect.wsStop ::
            sendMsg env chatId ("Failed to stop server: " ++ e)) := by
      unfold restartServer
      rw [he]
    refine ⟨heq, ?_⟩
    rw [heq]
    simp [wsStart_not_mem_sendMsg]
  · intro e hstop hstart
    unfold restartServer
    rw [hstop, hstart]
  · intro hstop hstart
    unfold restartServer
    rw [hstop, hstart]
  · constructor
    · intro hmem
      cases hstop : env.stopErr with
      | some e =>
        unfold restartServer at hmem
        rw [hstop] at hmem
        rw [List.mem_append] at hmem
        rcases hmem with hmem | hmem
        · rw [send_mem_sendMsg_iff] at hmem
          exact absurd hmem.2 (by decide)
        · rcases List.mem_cons.mp hmem with hmem | hmem
          · exact absurd hmem (by simp)
          · rw [send_mem_sendMsg_iff] at hmem
            exact absurd hmem.2
              (prefixed_ne "Failed to stop server: "
                "3X-UI restarted successfully." e ⟨by decide, by decide⟩).symm
      | none =>
        cases hstart : env.startErr with
        | some e =>
          unfold restartServer at hmem
          rw [hstop, hstart] at hmem
          rw [List.mem_append] at hmem
          rcases hmem with hmem | hmem
          · rw [send_mem_sendMsg_iff] at hmem
            exact absurd hmem.2 (by decide)
          · rcases List.mem_cons.mp hmem with hmem | hmem
            · exact absurd hmem (by simp)
            · rcases List.mem_cons.mp hmem with hmem | hmem
              · exact absurd hmem (by simp)
              · rw [send_mem_sendMsg_iff] at hmem
                exact absurd hmem.2
                  (prefixed_ne "Failed to start server: "
                    "3X-UI restarted successfully." e
                    ⟨by decide, by decide⟩).symm
        | none => exact ⟨rfl, rfl⟩
    · rintro ⟨hstop, hstart⟩
      unfold restartServer
      rw [hstop, hstart]
      rw [List.mem_append]
      refine Or.inr ?_
      refine List.mem_cons.mpr (Or.inr (List.mem_cons.mpr (Or.inr ?_)))
      exact (send_mem_sendMsg_iff env chatId chatId
        "3X-UI restarted successfully." "3X-UI restarted successfully.").mpr
        ⟨rfl, rfl⟩

/-- C7 witness: the three reporting regimes at concrete environments —
stop failure (`"down"`), start failure (`"up"`), and full success. -/
theorem c7_restart_reporting_witness :
    Effect.wsStart ∉ restartServer { envAllow with stopErr := some "down" } 7 ∧
    restartServer { envAllow with startErr := some "up" } 7 =
      sendMsg { envAllow with startErr := some "up" } 7 "Restarting 3X-UI..." ++
        (Effect.wsStop :: Effect.wsStart ::
          sendMsg { envAllow with startErr := some "up" } 7
            ("Failed to start server: " ++ "up")) ∧
    (Effect.send 7 "3X-UI restarted successfully." ∈
      restartServer envAllow 7) :=
  ⟨((c7_restart_reporting { envAllow with stopErr := some "down" } 7).1
      "down" rfl).2,
    (c7_restart_reporting { envAllow with startErr := some "up" } 7).2.1
      "up" rfl rfl,
    ((c7_restart_reporting envAllow 7).2.2.2).mpr ⟨rfl, rfl⟩⟩

/-- C8: with an empty configured schedule spec, `startCron` registers
the daily-report job under the six-field default `"0 0 8 * * *"`, starts
the cron runner, and that expression fires exactly at second 0, minute
0, hour 8, on every day of every month — every day at 08:00. -/
theorem c8_cron_default (env : Env) (st : BotState) (h : env.runtime = "") :
    (startCron env st).1.cronJobs = st.cronJobs ++ ["0 0 8 * * *"] ∧
    Effect.cronAdd "0 0 8 * * *" ∈ (startCron env st).2 ∧
    Effect.cronStart ∈ (startCron env st).2 ∧
    (∀ t : CronTime,
      cronMatches "0 0 8 * * *" t = true ↔
        t.sec = 0 ∧ t.min = 0 ∧ t.hour = 8) := by
  have hrt : resolvedRuntime env = "0 0 8 * * *" := by
    unfold resolvedRuntime
    rw [h]
    simp
  have hv : cronValid "0 0 8 * * *" = true := by decide
  have hcron : startCron env st =
      ({ st with cronJobs := st.cronJobs ++ ["0 0 8 * * *"],
                  cronId := st.cronJobs.length + 1, cronRunning := true },
        [Effect.cronAdd "0 0 8 * * *", Effect.cronStart,
          Effect.logInfo
            ("Telegram bot cron started with schedule:" ++ "0 0 8 * * *")]) := by
    unfold startCron
    rw [hrt]
    simp [hv]
  refine ⟨by rw [hcron], by rw [hcron]; simp, by rw [hcron]; simp, ?_⟩
  intro t
  have hf : cronFields "0 0 8 * * *" = ["0", "0", "8", "*", "*", "*"] := by
    decide
  unfold cronMatches
  rw [hf]
  have h0 : parseInt64 "0" = some 0 := by decide
  have h8 : parseInt64 "8" = some 8 := by decide
  have hne0 : ("0" : String) ≠ "*" := by decide
  have hne8 : ("8" : String) ≠ "*" := by decide
  simp only [cronFieldMatches, if_neg hne0, if_neg hne8, if_pos rfl, h0, h8]
  simp [Bool.and_eq_true, beq_iff_eq]
  constructor
  · rintro ⟨⟨h1, h2⟩, h3⟩
    refine ⟨by omega, by omega, by omega⟩
  · rintro ⟨h1, h2, h3⟩
    refine ⟨⟨by omega, by omega⟩, by omega⟩

/-- C8 witness: the concrete healthy environment has the empty schedule
spec; from the fresh session state the default job is registered and the
default schedule matches 08:00:00 and not 08:01:00. -/
theorem c8_cron_default_witness :
    (startCron envAllow initialState).1.cronJobs = ["0 0 8 * * *"] ∧
    cronMatches "0 0 8 * * *" ⟨0, 0, 8, 15, 6, 3⟩ = true ∧
    ¬ cronMatches "0 0 8 * * *" ⟨0, 1, 8, 15, 6, 3⟩ = true := by
  refine ⟨?_, ?_, ?_⟩
  · have h := (c8_cron_default envAllow initialState rfl).1
    simpa [initialState] using h
  · exact ((c8_cron_default envAllow initialState rfl).2.2.2
      ⟨0, 0, 8, 15, 6, 3⟩).mpr ⟨rfl, rfl, rfl⟩
  · intro hm
    have h := ((c8_cron_default envAllow initialState rfl).2.2.2
      ⟨0, 1, 8, 15, 6, 3⟩).mp hm
    exact absurd h.2.1 (by decide)

/-- C9: for an authorized chat the `/menu` command is answered by
`showMenu`, whose first effect carries the inline keyboard; that
keyboard has rows of exactly two, two and one buttons, and its callback
tokens are exactly the five dispatch options. -/
theorem c9_menu_keyboard :
    (∀ env chatId, checkAdmin env chatId = true →
      handleMessage env chatId "/menu" = showMenu env chatId) ∧
    (∀ env chatId,
      (showMenu env chatId).head? =
        some (Effect.sendKeyboard chatId "Select an option:" menuKeyboard)) ∧
    menuKeyboard.map List.length = [2, 2, 1] ∧
    menuKeyboard.flatMap (List.map Prod.snd) =
      ["functions", "status", "restart", "clearall", "help"] ∧
    menuKeyboard.flatMap (List.map Prod.fst) =
      ["Functions", "Status", "Restart", "Clear All", "Help"] := by
  refine ⟨?_, ?_, by decide, by decide, by decide⟩
  · intro env chatId hadm
    unfold handleMessage
    rw [hadm]
    rw [if_neg (by simp), if_neg (by decide), if_pos rfl]
  · intro env chatId
    unfold showMenu
    cases env.sendErr chatId "Select an option:" <;> simp

/-- C9 witness: the dispatch equality at the authorized chat 111 of the
concrete environment. -/
theorem c9_menu_keyboard_witness :
    handleMessage envAllow 111 "/menu" = showMenu envAllow 111 :=
  c9_menu_keyboard.1 envAllow 111 (by decide)

/-- C10: `getCPUUsage` yields the constant `45.5` for every environment
(hence independent of any actual system state), the source's `%.2f`
rendering of it is `"45.50"`, and every successful status report ends
with the literal line `CPU Usage: 45.50%`. -/
theorem c10_cpu_constant :
    (∀ env, getCPUUsage env = 45.5) ∧
    format2 (45.5 : ℚ) = "45.50" ∧
    (∀ env chatId inbounds, env.inbounds = Except.ok inbounds →
      sendStatus env chatId =
        sendMsg env chatId
          (statusBody env inbounds ++ "CPU Usage: 45.50%\n")) := by
  have hf : format2 (45.5 : ℚ) = "45.50" := by
    have hfl : Rat.floor ((45.5 : ℚ) * 100 + 1 / 2) = 4550 := by
      norm_num [Rat.floor]
    unfold format2
    rw [hfl]
    decide
  refine ⟨fun env => rfl, hf, ?_⟩
  intro env chatId inbounds h
  have hf2 : format2 (getCPUUsage env) = "45.50" := hf
  have hs : ∀ s : String,
      s ++ "CPU Usage: " ++ "45.50" ++ "%\n" = s ++ "CPU Usage: 45.50%\n" := by
    intro s
    rw [String.append_assoc, String.append_assoc]
    congr 1
  unfold sendStatus
  rw [h, hf2]
  show sendMsg env chatId
      (statusBody env inbounds ++ "CPU Usage: " ++ "45.50" ++ "%\n") =
    sendMsg env chatId (statusBody env inbounds ++ "CPU Usage: 45.50%\n")
  rw [hs]

/-- C10 witness: the CPU line of the status report at the concrete
healthy environment (whose inbound query returns the empty list). -/
theorem c10_cpu_constant_witness :
    sendStatus envAllow 111 =
      sendMsg envAllow 111 (statusBody envAllow [] ++ "CPU Usage: 45.50%\n") :=
  c10_cpu_constant.2.2 envAllow 111 [] rfl

end TgbotModel

